import Mathlib

/-!
Verification of the klayout-qt matplotlib backend adapter
(`backend_klayoutqt/backend_qt.py`, `backend_qtagg.py`, `qt_compat.py`).

The Python source is shallowly embedded: pure helpers become Lean
functions, the draw/paint flag machine becomes explicit state passing on
a `CanvasState` record, Python exceptions become `Except` values, and
Python `dict` literals built from association lists become last-wins
lookup functions.  Qt enum values (`Qt::Key`, `Qt::KeyboardModifier`)
are the numeric constants of the Qt library that `_to_int` extracts.
-/

namespace BackendQt

/-- Scan of `str.replace`: whenever `old` is a prefix of the remaining
input, emit `new` and skip `old`; otherwise copy one character.  `fuel`
bounds the recursion by the input length. -/
def replaceAux : Nat → List Char → List Char → List Char → List Char
  | 0, s, _, _ => s
  | fuel + 1, s, old, new =>
    if old ≠ [] ∧ old.isPrefixOf s then
      new ++ replaceAux fuel (s.drop old.length) old new
    else
      match s with
      | [] => []
      | c :: rest => c :: replaceAux fuel rest old new

/-- Python `s.replace(old, new)` (for non-empty `old`), as a function
that the kernel can evaluate. -/
def pyReplace (s old new : String) : String :=
  ⟨replaceAux s.data.length s.data old.data new.data⟩

/-- ASCII case mapping, the fragment of Python `s.lower()` used to
instantiate the abstract lowercasing collaborator on concrete ASCII
inputs.  Full Unicode case mapping (e.g. `Ä` to `ä`) is not
reimplemented here; statements about arbitrary key codes quantify over
the lowercasing function instead. -/
def pyLower (s : String) : String :=
  ⟨s.data.map Char.toLower⟩

/-- Python dict built from an association list: on duplicate keys the
later entry wins, exactly like `{k: v for k, v in pairs}`. -/
def pyDict (l : List (Nat × String)) (k : Nat) : Option String :=
  (l.reverse.find? (fun p => p.1 == k)).map (fun p => p.2)

/-- The `SPECIAL_KEYS` pair list from `backend_qt.py` lines 24-65, in
source order, with each `Key_*` name replaced by its Qt numeric value.
`darwin` selects the `sys.platform == "darwin"` variants of the
`Key_Control` / `Key_Meta` entries.  Note the duplicated `Key_F10` row
(source lines 59-60) and the absence of `Key_F11`. -/
def SPECIAL_KEYS_LIST (darwin : Bool) : List (Nat × String) :=
  [(0x01000000, "escape"),
   (0x01000001, "tab"),
   (0x01000003, "backspace"),
   (0x01000004, "enter"),
   (0x01000005, "enter"),
   (0x01000006, "insert"),
   (0x01000007, "delete"),
   (0x01000008, "pause"),
   (0x0100000a, "sysreq"),
   (0x0100000b, "clear"),
   (0x01000010, "home"),
   (0x01000011, "end"),
   (0x01000012, "left"),
   (0x01000013, "up"),
   (0x01000014, "right"),
   (0x01000015, "down"),
   (0x01000016, "pageup"),
   (0x01000017, "pagedown"),
   (0x01000020, "shift"),
   (0x01000021, if darwin then ("cmd") else ("control")),
   (0x01000022, if darwin then ("control") else ("meta")),
   (0x01000023, "alt"),
   (0x01000024, "caps_lock"),
   (0x01000030, "f1"),
   (0x01000031, "f2"),
   (0x01000032, "f3"),
   (0x01000033, "f4"),
   (0x01000034, "f5"),
   (0x01000035, "f6"),
   (0x01000036, "f7"),
   (0x01000037, "f8"),
   (0x01000038, "f9"),
   (0x01000039, "f10"),
   (0x01000039, "f11"),
   (0x0100003b, "f12"),
   (0x01000053, "super"),
   (0x01000054, "super")]

/-- `SPECIAL_KEYS` as a lookup: the Python dict comprehension of
`backend_qt.py` line 24. -/
def SPECIAL_KEYS (darwin : Bool) (k : Nat) : Option String :=
  pyDict (SPECIAL_KEYS_LIST darwin) k

/-- `_MODIFIER_KEYS` from `backend_qt.py` lines 69-78:
(KeyboardModifier bit, Qt::Key code) pairs in the fixed order
Control, Alt, Shift, Meta. -/
def _MODIFIER_KEYS : List (Nat × Nat) :=
  [(0x04000000, 0x01000021),
   (0x08000000, 0x01000023),
   (0x02000000, 0x01000020),
   (0x10000000, 0x01000022)]

/-- `FigureCanvasQT._mpl_modifiers` (`backend_qt.py` lines 311-323):
`[SPECIAL_KEYS[key].replace('control', 'ctrl') for mask, key in
_MODIFIER_KEYS if exclude != key and modifiers & mask]`.
`exclude` is `None` or a key code, hence `Option Nat`. -/
def _mpl_modifiers (darwin : Bool) (modifiers : Nat) (exclude : Option Nat) : List String :=
  _MODIFIER_KEYS.filterMap (fun mk =>
    if exclude ≠ some mk.2 ∧ modifiers &&& mk.1 ≠ 0 then
      (SPECIAL_KEYS darwin mk.2).map (fun s => pyReplace s ("control") ("ctrl"))
    else none)

/-- `sys.maxunicode`. -/
def maxunicode : Nat := 0x10FFFF

/-- `FigureCanvasQT._get_key` (`backend_qt.py` lines 325-349): special
keys use their table name; other codes above `sys.maxunicode` yield no
key; otherwise `chr(event_key)` is used, lowercased unless the shift
modifier is active, in which case `shift` is consumed from the modifier
list.  The parts are joined with `+`.  The Python builtins
`chr` (code point to one-character string) and `str.lower` (full
Unicode lowercasing) are external collaborators and enter as the
parameters `chr` and `lower` rather than being reimplemented. -/
def _get_key_with (chr : Nat → String) (lower : String → String)
    (darwin : Bool) (event_key : Nat) (modifiers : Nat) : Option String :=
  let mods := _mpl_modifiers darwin modifiers (some event_key)
  match SPECIAL_KEYS darwin event_key with
  | some key => some (String.intercalate ("+") (mods ++ [key]))
  | none =>
    if event_key > maxunicode then
      none
    else
      let key := chr event_key
      if mods.contains ("shift") then
        some (String.intercalate ("+") (mods.erase ("shift") ++ [key]))
      else
        some (String.intercalate ("+") (mods ++ [lower key]))

/-- `_get_key` instantiated with computable ASCII-complete stand-ins
for the two builtins (`Char.ofNat` for `chr`, ASCII case mapping for
`lower`).  Every concrete evaluation below either stays on the
special-key or outside-range paths, where `chr` and `lower` are never
invoked, or uses an ASCII code, where the stand-ins agree with the
builtins. -/
def _get_key (darwin : Bool) (event_key : Nat) (modifiers : Nat) : Option String :=
  _get_key_with (fun n => String.singleton (Char.ofNat n)) pyLower darwin event_key modifiers

/-- A dispatched matplotlib `KeyEvent`, reduced to its name and key
string. -/
structure KeyEventModel where
  name : String
  key : String
deriving DecidableEq, Repr

/-- `FigureCanvasQT.keyPressEvent` (`backend_qt.py` lines 271-276): a
`KeyEvent` is dispatched only when `_get_key` returns a key. -/
def keyPressEvent (darwin : Bool) (event_key : Nat) (modifiers : Nat) :
    Option KeyEventModel :=
  (_get_key darwin event_key modifiers).map (fun k => ⟨"key_press_event", k⟩)

/-- `FigureCanvasQT.keyReleaseEvent` (`backend_qt.py` lines 278-283). -/
def keyReleaseEvent (darwin : Bool) (event_key : Nat) (modifiers : Nat) :
    Option KeyEventModel :=
  (_get_key darwin event_key modifiers).map (fun k => ⟨"key_release_event", k⟩)

/-! ### Draw/paint state machine (`FigureCanvasQT`) -/

/-- The canvas state touched by `draw` / `draw_idle` / `_draw_idle`
(`backend_qt.py` lines 140-145, 355-397): the `_draw_pending` and
`_is_drawing` flags, the widget dimensions consulted by `_draw_idle`,
the number of zero-delay single-shot timer callbacks scheduled by
`draw_idle` via `self._draw_idle_timer.start()`, the number of
completed render passes (calls into `super().draw()`, the Agg render),
and the log written by `traceback.print_exc()`. -/
structure CanvasState where
  draw_pending : Bool
  is_drawing : Bool
  width : Int
  height : Int
  scheduled : Nat
  draw_count : Nat
  log : List String
deriving DecidableEq, Repr

/-- `FigureCanvasQT.draw` (`backend_qt.py` lines 355-363): re-entrant
calls while `_is_drawing` return immediately; otherwise the Agg render
runs with `_is_drawing` set, and `cbook._setattr_cm` restores the flag
afterwards even on an exception.  `raises` abstracts whether the Agg
render (`super().draw()`) raises; `self.update()` merely queues a
toolkit repaint and is outside the model. -/
def draw (raises : Bool) (s : CanvasState) : Except String CanvasState :=
  if s.is_drawing then
    Except.ok s
  else if raises then
    Except.error ("draw failed")
  else
    Except.ok {s with draw_count := s.draw_count + 1}

/-- `FigureCanvasQT.draw_idle` (`backend_qt.py` lines 365-375): if
neither a draw is pending nor a draw is in progress, set the pending
flag and start the zero-delay single-shot timer (scheduling one
`_draw_idle` callback on the event loop). -/
def draw_idle (s : CanvasState) : CanvasState :=
  if s.draw_pending || s.is_drawing then
    s
  else
    {s with draw_pending := true, scheduled := s.scheduled + 1}

/-- `FigureCanvasQT._draw_idle` (`backend_qt.py` lines 386-397): under
`_idle_draw_cntx` (a base-class flag this backend never reads), return
if nothing is pending; clear the pending flag; skip the render when
`self.height < 0 or self.width < 0`; otherwise `try: self.draw()`
and log any exception with `traceback.print_exc()` instead of
propagating it.  `FigureCanvasQTAgg.paintEvent` (`backend_qtagg.py`
line 23) invokes exactly this function before blitting. -/
def _draw_idle (raises : Bool) (s : CanvasState) : Except String CanvasState :=
  if !s.draw_pending then
    Except.ok s
  else
    let s1 := {s with draw_pending := false}
    if s1.height < 0 ∨ s1.width < 0 then
      Except.ok s1
    else
      match draw raises s1 with
      | Except.ok s2 => Except.ok s2
      | Except.error e => Except.ok {s1 with log := s1.log ++ [e]}

/-! ### Mouse coordinate conversion -/

/-- `FigureCanvasQT.mouseEventCoords` (`backend_qt.py` lines 188-208),
for an already-extracted point: `x = pos.x`,
`y = self.figure.bbox.height / self.device_pixel_ratio - pos.y`, and
the result is `(x * ratio, y * ratio)`.  Real arithmetic is embedded
as `ℚ`. -/
def mouseEventCoords (posx posy bboxHeight device_pixel_ratio : ℚ) : ℚ × ℚ :=
  let x := posx
  let y := bboxHeight / device_pixel_ratio - posy
  (x * device_pixel_ratio, y * device_pixel_ratio)

/-! ### Navigation toolbar -/

/-- The enabled-state of the optional `back` / `forward` toolbar
actions (`self._actions`): `none` when the action does not exist. -/
structure NavActions where
  back : Option Bool
  forward : Option Bool
deriving DecidableEq, Repr

/-- `NavigationToolbar2QT.set_history_buttons` (`backend_qt.py` lines
689-695): `can_backward = self._nav_stack._pos > 0`, `can_forward =
self._nav_stack._pos < len(self._nav_stack._elements) - 1`, applied by
`setEnabled` to whichever of the two actions exist.  `pos` is an `Int`
because the collaborator's empty stack holds `_pos = -1`. -/
def set_history_buttons (pos : Int) (nElements : Nat) (a : NavActions) : NavActions :=
  let can_backward := decide (pos > 0)
  let can_forward := decide (pos < (nElements : Int) - 1)
  { back := a.back.map (fun _ => can_backward),
    forward := a.forward.map (fun _ => can_forward) }

/-! ### Save-figure dialog -/

/-- Python `os.path.dirname` on `/`-separated paths, as used to
remember the save directory. -/
def dirname (p : String) : String :=
  let parts := p.splitOn ("/")
  if parts.length ≤ 1 then "" else String.intercalate ("/") parts.dropLast

/-- Observable outcome of `NavigationToolbar2QT.save_figure`: the
filter string handed to the file dialog, the pre-selected filter, the
number of `savefig` attempts, the message text of each
`QMessageBox.critical` error dialog shown, the directory stored back
into `rcParams['savefig.directory']`, and any exception escaping the
method. -/
structure SaveFigureResult where
  filters : String
  selectedFilter : Option String
  save_attempts : Nat
  error_dialogs : List String
  remembered_dir : Option String
  raised : Option String
deriving DecidableEq, Repr

/-- `NavigationToolbar2QT.save_figure` (`backend_qt.py` lines 657-687).
`filetypes` is the collaborator's grouped name-to-extensions map (as
items), `startpath` the expanded `rcParams['savefig.directory']`,
`fname` the file dialog's result (empty string when cancelled), and
`savefig` the collaborator's `figure.savefig`, which may raise.  On an
exception from `savefig`, one error dialog with `str(e)` is shown; the
save is not retried and nothing propagates. -/
def save_figure (filetypes : List (String × List String)) (default_filetype : String)
    (startpath : String) (fname : String) (savefig : String → Except String Unit) :
    SaveFigureResult :=
  let sorted_filetypes := filetypes.mergeSort (fun a b => !decide (b.1 < a.1))
  let pairs := sorted_filetypes.map (fun nx =>
    (nx.1 ++ " (" ++ String.intercalate (" ") (nx.2.map (fun ext => "*." ++ ext)) ++ ")",
     nx.2))
  let selectedFilter := ((pairs.reverse.find? (fun p => p.2.contains default_filetype)).map
    (fun p => p.1))
  let filters := String.intercalate (";;") (pairs.map (fun p => p.1))
  if fname = "" then
    ⟨filters, selectedFilter, 0, [], none, none⟩
  else
    let remembered := if startpath ≠ "" then some (dirname fname) else none
    match savefig fname with
    | Except.ok _ => ⟨filters, selectedFilter, 1, [], remembered, none⟩
    | Except.error e => ⟨filters, selectedFilter, 1, [e], remembered, none⟩

/-! ### Helper lemmas -/

/-- Every key in the special-key table is a Qt function-key code at or
above `0x01000000`, so codes below that bound (in particular all
Unicode code points) are absent from the table. -/
lemma SPECIAL_KEYS_none_of_lt (k : Nat) (hk : k < 0x01000000) :
    SPECIAL_KEYS false k = none := by
  have hall : ∀ x ∈ (SPECIAL_KEYS_LIST false).reverse, 0x01000000 ≤ x.1 := by decide
  simp only [SPECIAL_KEYS, pyDict]
  rw [List.find?_eq_none.mpr]
  · rfl
  · intro x hx
    have h := hall x hx
    simp only [beq_iff_eq]
    omega

/-- The table name of `Key_Control`, after the `control → ctrl`
renaming. -/
lemma modname_ctrl :
    (SPECIAL_KEYS false 0x01000021).map (fun s => pyReplace s ("control") ("ctrl")) =
      some ("ctrl") := by decide

/-- The table name of `Key_Alt` (unchanged by the renaming). -/
lemma modname_alt :
    (SPECIAL_KEYS false 0x01000023).map (fun s => pyReplace s ("control") ("ctrl")) =
      some ("alt") := by decide

/-- The table name of `Key_Shift` (unchanged by the renaming). -/
lemma modname_shift :
    (SPECIAL_KEYS false 0x01000020).map (fun s => pyReplace s ("control") ("ctrl")) =
      some ("shift") := by decide

/-- The table name of `Key_Meta` (unchanged by the renaming). -/
lemma modname_meta :
    (SPECIAL_KEYS false 0x01000022).map (fun s => pyReplace s ("control") ("ctrl")) =
      some ("meta") := by decide

/-- Closed form of `_mpl_modifiers` on the non-darwin platform: one
optional singleton per modifier, in the fixed source order. -/
lemma mpl_modifiers_eq (m : Nat) (e : Option Nat) :
    _mpl_modifiers false m e =
      ((if e ≠ some 0x01000021 ∧ m &&& 0x04000000 ≠ 0 then ["ctrl"] else []) ++
       (if e ≠ some 0x01000023 ∧ m &&& 0x08000000 ≠ 0 then ["alt"] else []) ++
       (if e ≠ some 0x01000020 ∧ m &&& 0x02000000 ≠ 0 then ["shift"] else []) ++
       (if e ≠ some 0x01000022 ∧ m &&& 0x10000000 ≠ 0 then ["meta"] else [])) := by
  simp only [_mpl_modifiers, _MODIFIER_KEYS, List.filterMap_cons, List.filterMap_nil]
  by_cases h1 : e ≠ some 0x01000021 ∧ m &&& 0x04000000 ≠ 0 <;>
  by_cases h2 : e ≠ some 0x01000023 ∧ m &&& 0x08000000 ≠ 0 <;>
  by_cases h3 : e ≠ some 0x01000020 ∧ m &&& 0x02000000 ≠ 0 <;>
  by_cases h4 : e ≠ some 0x01000022 ∧ m &&& 0x10000000 ≠ 0 <;>
  simp only [h1, h2, h3, h4, if_true, if_false, iff_true, iff_false, ite_true, ite_false,
    modname_ctrl, modname_alt, modname_shift, modname_meta, List.nil_append,
    List.cons_append, List.append_nil, eq_self_iff_true, not_true, not_false_iff] <;>
  simp [h1, h2, h3, h4, modname_ctrl, modname_alt, modname_shift, modname_meta]

/-- Membership in an optional singleton. -/
lemma mem_ite_singleton (c : Prop) [Decidable c] (a b : String) :
    (b ∈ if c then [a] else []) ↔ (b = a ∧ c) := by
  by_cases h : c <;> simp [h]

/-- An optional singleton is a sublist of the singleton. -/
lemma ite_singleton_sublist (c : Prop) [Decidable c] (a : String) :
    (if c then [a] else []).Sublist [a] := by
  by_cases h : c <;> simp [h]

/-! ### Claim theorems -/

/-- Claim C4: for every modifier bitmask and excluded key code, the
list produced by `_mpl_modifiers` is a subsequence of the fixed order
`[ctrl, alt, shift, meta]` (with `control` renamed to `ctrl`), and it
contains a modifier name exactly when that modifier's bit is set in the
mask and its key code is not the excluded (currently pressed) key. -/
theorem mpl_modifiers_order_and_membership (m : Nat) (e : Option Nat) :
    (_mpl_modifiers false m e).Sublist (["ctrl", "alt", "shift", "meta"]) ∧
    (("ctrl") ∈ _mpl_modifiers false m e ↔
      (e ≠ some 0x01000021 ∧ m &&& 0x04000000 ≠ 0)) ∧
    (("alt") ∈ _mpl_modifiers false m e ↔
      (e ≠ some 0x01000023 ∧ m &&& 0x08000000 ≠ 0)) ∧
    (("shift") ∈ _mpl_modifiers false m e ↔
      (e ≠ some 0x01000020 ∧ m &&& 0x02000000 ≠ 0)) ∧
    (("meta") ∈ _mpl_modifiers false m e ↔
      (e ≠ some 0x01000022 ∧ m &&& 0x10000000 ≠ 0)) := by
  rw [mpl_modifiers_eq]
  refine ⟨?_, ?_, ?_, ?_, ?_⟩
  · exact List.Sublist.append
      (List.Sublist.append
        (List.Sublist.append (ite_singleton_sublist _ _) (ite_singleton_sublist _ _))
        (ite_singleton_sublist _ _))
      (ite_singleton_sublist _ _)
  all_goals simp only [List.mem_append, mem_ite_singleton]
  all_goals simp

/-- Claim C5: for every model `chr` / `lower` of the Python builtins
(in particular the real ones) and every non-special key code that is a
valid Unicode code point (such codes are all below every special-key
code), `_get_key` keeps the capitalized character delivered by Qt and
removes `shift` from the modifier list when the shift modifier is
active, and emits the lowercased character when it is not; in
particular the code of `A` yields `"A"` with shift active (no `shift`
component) and `"a"` without, and the remaining modifiers and the key
are joined with `+` in the fixed modifier order. -/
theorem get_key_unicode_case (chr : Nat → String) (lower : String → String)
    (k m : Nat) (hk : k ≤ 0x10FFFF) :
    (_get_key_with chr lower false k m =
      some (if (_mpl_modifiers false m (some k)).contains ("shift") then
              String.intercalate ("+")
                ((_mpl_modifiers false m (some k)).erase ("shift") ++ [chr k])
            else
              String.intercalate ("+")
                (_mpl_modifiers false m (some k) ++ [lower (chr k)]))) ∧
    _get_key false 65 0x02000000 = some ("A") ∧
    _get_key false 65 0 = some ("a") ∧
    _get_key false 65 (0x04000000 ||| 0x08000000 ||| 0x02000000 ||| 0x10000000) =
      some ("ctrl+alt+meta+A") ∧
    _get_key false 65 (0x04000000 ||| 0x08000000 ||| 0x10000000) =
      some ("ctrl+alt+meta+a") := by
  refine ⟨?_, by decide, by decide, by decide, by decide⟩
  have hnone := SPECIAL_KEYS_none_of_lt k (by omega)
  have hmax : ¬ k > maxunicode := by simp only [maxunicode]; omega
  simp only [_get_key_with, hnone, hmax, if_false, ite_false]
  split <;> rfl

/-- Witness for C5 at the code of `A` with the shift modifier bit,
instantiating the builtins with their ASCII-complete stand-ins. -/
theorem get_key_unicode_case_w :
    (65 : Nat) ≤ 0x10FFFF ∧
    _get_key_with (fun n => String.singleton (Char.ofNat n)) pyLower false 65 0x02000000 =
      some (if (_mpl_modifiers false 0x02000000 (some 65)).contains ("shift") then
              String.intercalate ("+")
                ((_mpl_modifiers false 0x02000000 (some 65)).erase ("shift") ++
                  [(fun n => String.singleton (Char.ofNat n)) 65])
            else
              String.intercalate ("+")
                (_mpl_modifiers false 0x02000000 (some 65) ++
                  [pyLower ((fun n => String.singleton (Char.ofNat n)) 65)])) ∧
    _get_key false 65 0x02000000 = some ("A") := by
  have h := get_key_unicode_case (fun n => String.singleton (Char.ofNat n)) pyLower
    65 0x02000000 (by decide)
  exact ⟨by decide, h.1, h.2.1⟩

/-- Claim C6: a key code absent from the special-key table and above
`sys.maxunicode` yields no key from `_get_key`, so `keyPressEvent` and
`keyReleaseEvent` dispatch no `KeyEvent` at all. -/
theorem get_key_none_beyond_maxunicode (k m : Nat)
    (h1 : SPECIAL_KEYS false k = none) (h2 : k > maxunicode) :
    _get_key false k m = none ∧ keyPressEvent false k m = none ∧
    keyReleaseEvent false k m = none := by
  have hg : _get_key false k m = none := by
    simp only [_get_key, _get_key_with, h1, h2, if_true, ite_true]
  exact ⟨hg, by simp [keyPressEvent, hg], by simp [keyReleaseEvent, hg]⟩

/-- Witness for C6 at the Qt code of `F11` (`0x0100003a`), which the
(buggy) table indeed lacks. -/
theorem get_key_none_beyond_maxunicode_w :
    SPECIAL_KEYS false 0x0100003a = none ∧ 0x0100003a > maxunicode ∧
    _get_key false 0x0100003a 0 = none ∧ keyPressEvent false 0x0100003a 0 = none ∧
    keyReleaseEvent false 0x0100003a 0 = none := by
  have h := get_key_none_beyond_maxunicode 0x0100003a 0 (by decide) (by decide)
  exact ⟨by decide, by decide, h.1, h.2.1, h.2.2⟩

/-- Claim C10: the duplicated `Key_F10` row of `SPECIAL_KEYS` makes the
F10 key code map to the name `f11` (the `f10` entry is overwritten),
there is no entry for `Key_F11`, and since F-key codes exceed
`sys.maxunicode`, pressing F11 produces no key event while pressing F10
produces the key name `f11`. -/
theorem special_keys_f10_maps_to_f11 :
    SPECIAL_KEYS false 0x01000039 = some ("f11") ∧
    SPECIAL_KEYS false 0x0100003a = none ∧
    0x01000039 > maxunicode ∧
    _get_key false 0x01000039 0 = some ("f11") ∧
    _get_key false 0x0100003a 0 = none ∧
    keyPressEvent false 0x0100003a 0 = none ∧
    keyPressEvent false 0x01000039 0 = some ⟨"key_press_event", "f11"⟩ := by
  decide

/-- Claim C1: `mouseEventCoords` maps a native position `(px, py)`, a
figure bounding-box height `H` and a device pixel ratio `r` to
`(px * r, (H / r - py) * r)`: x scaled from logical to physical pixels,
y flipped so that `y = 0` is the bottom of the canvas, then scaled.
Equivalently the second component is `H - py * r`. -/
theorem mouseEventCoords_formula (px py H r : ℚ) (hr : r ≠ 0) :
    mouseEventCoords px py H r = (px * r, (H / r - py) * r) ∧
    (mouseEventCoords px py H r).2 = H - py * r := by
  refine ⟨rfl, ?_⟩
  simp only [mouseEventCoords]
  field_simp
  ring

/-- Witness for C1 at `px = 3`, `py = 4`, `H = 100`, `r = 2`. -/
theorem mouseEventCoords_formula_w :
    (2 : ℚ) ≠ 0 ∧ mouseEventCoords 3 4 100 2 = (6, 92) := by
  have h := mouseEventCoords_formula 3 4 100 2 (by norm_num)
  refine ⟨by norm_num, ?_⟩
  rw [h.1]
  norm_num

/-- Claim C2: a second `draw_idle` call while a draw is pending is a
no-op (no second timer callback is scheduled): two calls schedule
exactly one callback, and that single `_draw_idle` callback performs
exactly one render pass, after which a further callback draws
nothing. -/
theorem draw_idle_coalesces (s : CanvasState)
    (hp : s.draw_pending = false) (hd : s.is_drawing = false)
    (hw : 0 ≤ s.width) (hh : 0 ≤ s.height) :
    draw_idle (draw_idle s) = draw_idle s ∧
    (draw_idle s).scheduled = s.scheduled + 1 ∧
    (∃ s2, _draw_idle false (draw_idle s) = Except.ok s2 ∧
      s2.draw_count = s.draw_count + 1 ∧
      _draw_idle false s2 = Except.ok s2) ∧
    (∀ t : CanvasState, t.is_drawing = true → draw_idle t = t) := by
  have hdrawing : ∀ t : CanvasState, t.is_drawing = true → draw_idle t = t := by
    intro t ht
    simp [draw_idle, ht]
  obtain ⟨p, d, w, h, sc, dc, lg⟩ := s
  replace hp : p = false := hp
  replace hd : d = false := hd
  subst hp hd
  replace hw : (0 : Int) ≤ w := hw
  replace hh : (0 : Int) ≤ h := hh
  have hcond : ¬((h : Int) < 0 ∨ (w : Int) < 0) := by omega
  refine ⟨rfl, rfl, ⟨⟨false, false, w, h, sc + 1, dc + 1, lg⟩, ?_, rfl, ?_⟩, hdrawing⟩
  · simp only [draw_idle, _draw_idle, draw, Bool.false_or, ite_false, Bool.not_true,
      Bool.false_eq_true, if_neg hcond]
  · rfl

/-- Witness for C2 at an idle 640x480 canvas. -/
theorem draw_idle_coalesces_w :
    draw_idle (draw_idle ⟨false, false, 640, 480, 0, 0, []⟩) =
      draw_idle ⟨false, false, 640, 480, 0, 0, []⟩ ∧
    (draw_idle ⟨false, false, 640, 480, 0, 0, []⟩).scheduled = 0 + 1 ∧
    (∃ s2, _draw_idle false (draw_idle ⟨false, false, 640, 480, 0, 0, []⟩) = Except.ok s2 ∧
      s2.draw_count = 0 + 1 ∧ _draw_idle false s2 = Except.ok s2) ∧
    draw_idle ⟨false, true, 640, 480, 0, 0, []⟩ = ⟨false, true, 640, 480, 0, 0, []⟩ := by
  have h := draw_idle_coalesces ⟨false, false, 640, 480, 0, 0, []⟩ rfl rfl
    (by decide) (by decide)
  exact ⟨h.1, h.2.1, h.2.2.1, h.2.2.2 ⟨false, true, 640, 480, 0, 0, []⟩ rfl⟩

/-- Counterexample to C3 as stated: at width 1 and height exactly 0
(so height ≤ 0), the pending redraw is not skipped - `_draw_idle`
performs a render pass (`draw_count` increases), because the source
guard is `height < 0 or width < 0`, not `≤ 0`. -/
theorem draw_idle_zero_height_renders :
    ¬ (∀ s : CanvasState, s.draw_pending = true → s.width ≤ 0 ∨ s.height ≤ 0 →
        ∃ s', _draw_idle false s = Except.ok s' ∧ s'.draw_count = s.draw_count) := by
  intro hclaim
  obtain ⟨s', hs', hcount⟩ :=
    hclaim ⟨true, false, 1, 0, 0, 0, []⟩ rfl (Or.inr le_rfl)
  have hval : _draw_idle false ⟨true, false, 1, 0, 0, 0, []⟩ =
      Except.ok ⟨false, false, 1, 0, 0, 1, []⟩ := rfl
  rw [hval] at hs'
  injection hs' with h
  subst h
  exact absurd hcount (by decide)

/-- Claim C3 (amended): for every canvas whose width or height is
strictly negative, the scheduled idle-redraw callback clears the
pending flag and returns without calling `draw()` (no render pass,
whether or not the render would raise). -/
theorem draw_idle_skips_negative_dims (s : CanvasState) (raises : Bool)
    (hp : s.draw_pending = true) (hneg : s.height < 0 ∨ s.width < 0) :
    _draw_idle raises s = Except.ok {s with draw_pending := false} ∧
    ({s with draw_pending := false}).draw_count = s.draw_count := by
  refine ⟨?_, rfl⟩
  simp only [_draw_idle, hp, Bool.not_true, Bool.false_eq_true, ite_false, if_pos hneg]

/-- Witness for the amended C3 at height `-1`. -/
theorem draw_idle_skips_negative_dims_w :
    _draw_idle true ⟨true, false, 3, -1, 0, 0, []⟩ =
      Except.ok ⟨false, false, 3, -1, 0, 0, []⟩ ∧ (0 : Nat) = 0 :=
  draw_idle_skips_negative_dims ⟨true, false, 3, -1, 0, 0, []⟩ true rfl
    (Or.inl (by decide))

/-- Claim C7: `_draw_idle` never lets an exception out of the render
pass: its result is always `Except.ok` (so nothing propagates to the
paint callback that invokes it), and when a pending draw's render
raises, the exception is logged and the pending flag stays cleared. -/
theorem draw_idle_catches_render_errors (raises : Bool) (s : CanvasState) :
    (∃ s', _draw_idle raises s = Except.ok s') ∧
    (s.draw_pending = true → s.is_drawing = false → ¬(s.height < 0 ∨ s.width < 0) →
      _draw_idle true s =
        Except.ok {s with draw_pending := false, log := s.log ++ [("draw failed")]}) := by
  constructor
  · dsimp only [_draw_idle]
    split
    · exact ⟨s, rfl⟩
    · split
      · exact ⟨_, rfl⟩
      · split <;> exact ⟨_, rfl⟩
  · intro hp hd hdim
    simp only [_draw_idle, draw, hp, hd, Bool.not_true, Bool.false_eq_true, ite_false,
      if_neg hdim, if_true, ite_true]

/-- Witness for C7 at a pending 8x6 canvas whose render raises. -/
theorem draw_idle_catches_render_errors_w :
    (∃ s', _draw_idle true ⟨true, false, 8, 6, 0, 0, []⟩ = Except.ok s') ∧
    _draw_idle true ⟨true, false, 8, 6, 0, 0, []⟩ =
      Except.ok ⟨false, false, 8, 6, 0, 0, ["draw failed"]⟩ := by
  have h := draw_idle_catches_render_errors true ⟨true, false, 8, 6, 0, 0, []⟩
  exact ⟨h.1, h.2 rfl rfl (by decide)⟩

/-- Claim C8: when the collaborator's `savefig` raises, `save_figure`
shows exactly one error dialog carrying the exception text, attempts
the save exactly once (no retry), and propagates nothing. -/
theorem save_figure_error_dialog (filetypes : List (String × List String))
    (default_filetype startpath fname : String) (savefig : String → Except String Unit)
    (e : String) (hf : fname ≠ ("")) (he : savefig fname = Except.error e) :
    (save_figure filetypes default_filetype startpath fname savefig).save_attempts = 1 ∧
    (save_figure filetypes default_filetype startpath fname savefig).error_dialogs = [e] ∧
    (save_figure filetypes default_filetype startpath fname savefig).raised = none := by
  simp [save_figure, if_neg hf, he]

/-- Witness for C8: saving `plot.png` while `savefig` raises
`disk full`. -/
theorem save_figure_error_dialog_w :
    ("plot.png" : String) ≠ ("") ∧
    (save_figure [(("Portable Network Graphics"), ["png"])] ("png") ("") ("plot.png")
      (fun _ => Except.error ("disk full"))).save_attempts = 1 ∧
    (save_figure [(("Portable Network Graphics"), ["png"])] ("png") ("") ("plot.png")
      (fun _ => Except.error ("disk full"))).error_dialogs = [("disk full")] ∧
    (save_figure [(("Portable Network Graphics"), ["png"])] ("png") ("") ("plot.png")
      (fun _ => Except.error ("disk full"))).raised = none := by
  have h := save_figure_error_dialog [(("Portable Network Graphics"), ["png"])]
    ("png") ("") ("plot.png") (fun _ => Except.error ("disk full")) ("disk full")
    (by decide) rfl
  exact ⟨by decide, h.1, h.2.1, h.2.2⟩

/-- Claim C9: `set_history_buttons` enables the `back` action exactly
when the stack position is positive and the `forward` action exactly
when the position is below the element count minus one, whenever those
actions exist (and leaves absent actions absent). -/
theorem set_history_buttons_enablement (pos : Int) (n : Nat) (a : NavActions) :
    (∀ b, a.back = some b →
      (set_history_buttons pos n a).back = some (decide (pos > 0))) ∧
    (∀ f, a.forward = some f →
      (set_history_buttons pos n a).forward = some (decide (pos < (n : Int) - 1))) ∧
    (a.back = none → (set_history_buttons pos n a).back = none) ∧
    (a.forward = none → (set_history_buttons pos n a).forward = none) := by
  refine ⟨?_, ?_, ?_, ?_⟩
  · intro b hb
    simp [set_history_buttons, hb]
  · intro f hf
    simp [set_history_buttons, hf]
  · intro hb
    simp [set_history_buttons, hb]
  · intro hf
    simp [set_history_buttons, hf]

/-- Witness for C9 at position 2 of a 2-element stack: back enabled,
forward disabled. -/
theorem set_history_buttons_enablement_w :
    (set_history_buttons 2 2 ⟨some false, some true⟩).back = some true ∧
    (set_history_buttons 2 2 ⟨some false, some true⟩).forward = some false := by
  have h := set_history_buttons_enablement 2 2 ⟨some false, some true⟩
  exact ⟨h.1 false rfl, h.2.1 true rfl⟩

end BackendQt
